import Mathlib

/-!
# Verification of the Agentic AI Investment Analysis sample (api-app)

Shallow embedding, in Lean 4, of the event-broker, what-if-chat and
workflow-executor code of the `api-app` service, together with proofs about
the embedded operations.

The embedding follows the Python source files:

* `app/workflow/event_queue.py` (`EventMessage`, `EventQueue`)
* `app/utils/sse_stream_event_queue.py` (`SSEStreamEventQueue`)
* `app/models/_stream_event_message.py` (`StreamEventMessage`)
* `app/what_if_chat/what_if_models.py` and `what_if_executors.py`
* `app/services/whatif_workflow_executor_service.py`
* `app/workflow/workflow_executor.py`

Conventions: Python `int` is `Int`; `Optional[T]` is `Option T`; dynamic
payload values (`Any` data fields) are a small `PyVal`/`PyData` model;
mutation is explicit state passing; a Python statement that can raise is
modelled with `Except String` where the raising path matters.  External
collaborators (the LLM chat client, the repositories) enter as explicit
parameters / oracle functions.
-/

namespace InvestSample

/-! ## A small model of dynamic Python payload values

The event `data` fields are typed `Optional[Any]` in the source.  The code
under verification only ever stores `None`, strings, ints, or flat dicts in
them, so that is what the model provides. -/

/-- A primitive Python value as it occurs in event payload dicts. -/
inductive PyVal where
  | vnone
  | vstr (s : String)
  | vint (n : Int)
deriving DecidableEq, Repr

/-- A flat Python dict (insertion ordered, as in CPython). -/
abbrev PyDict := List (String × PyVal)

/-- A dynamic `data` payload: `None`, a primitive value, or a dict. -/
inductive PyData where
  | pnone
  | pval (v : PyVal)
  | pdict (d : PyDict)
deriving DecidableEq, Repr

/-- Model of `d.get(k, dflt)` on a Python dict. -/
def pyDictGet (d : PyDict) (k : String) (dflt : PyVal) : PyVal :=
  (d.lookup k).getD dflt

/-- Python truthiness of a `data` payload (`None`, `""`, `0`, `{}` are falsy). -/
def pyDataFalsy : PyData → Bool
  | .pnone => true
  | .pval (.vstr s) => s == ""
  | .pval (.vint n) => n == 0
  | .pval .vnone => true
  | .pdict d => d.isEmpty

/-- Model of `data or {}` as used in the event handlers. -/
def pyDataOrEmptyDict (d : PyData) : PyData :=
  if pyDataFalsy d then .pdict [] else d

/-- Python truthiness of an `Optional[str]` (`None` and `""` are falsy),
as used by `if not event_msg.timestamp`. -/
def pyStrOptFalsy : Option String → Bool
  | Option.none => true
  | some s => s == ""

/-- Model of `value > since_sequence` where `value` came out of a dynamic dict:
comparing a non-int (e.g. `None`) with an int raises `TypeError` in Python. -/
def pyValGtInt : PyVal → Int → Except String Bool
  | .vint n, s => .ok (decide (s < n))
  | _, _ => .error "TypeError"

/-- Model of `e.sequence > since_sequence` on an `Optional[int]` field: `None > int`
raises `TypeError` in Python. -/
def pyOptIntGt : Option Int → Int → Except String Bool
  | some n, s => .ok (decide (s < n))
  | Option.none, _ => .error "TypeError"

/-- A left-to-right effectful filter: the Lean rendering of a Python list
comprehension whose predicate may raise. -/
def exceptFilter (p : α → Except String Bool) : List α → Except String (List α)
  | [] => .ok []
  | x :: xs => do
    let b ← p x
    let rest ← exceptFilter p xs
    pure (if b then x :: rest else rest)

/-- Model of `collections.deque(maxlen := N).append`: append on the right and, if the
deque already holds `N` items, silently evict from the left. -/
def dequeAppend (maxLen : Nat) (q : List α) (x : α) : List α :=
  let q' := q ++ [x]
  q'.drop (q'.length - maxLen)

/-! ## `app/workflow/event_queue.py` — `EventMessage` and `EventQueue` -/

/-- Model of `EventMessage` (pydantic model in `event_queue.py`).  The pydantic
default of `timestamp` is irrelevant here because `EventQueue` always passes
`timestamp` explicitly. -/
structure EventMessage where
  type : String
  executor : Option String
  data : PyData
  message : Option String
  sequence : Option Int
  timestamp : Option String
deriving DecidableEq, Repr

/-- The mutable state of an `EventQueue` instance.  The three `defaultdict`s
are modelled as total functions with the `defaultdict` default as the value
on ids never written; each registered listener (`asyncio.Queue`) is modelled
by the list of messages put into it so far. -/
structure EventQueueState where
  queues : String → List EventMessage
  sequenceNumbers : String → Int
  listeners : String → List (List EventMessage)
  maxEvents : Nat

/-- A fresh `EventQueue(max_events_per_analysis)` instance. -/
def EventQueueState.init (maxEventsPerAnalysis : Nat) : EventQueueState :=
  { queues := fun _ => []
    sequenceNumbers := fun _ => 0
    listeners := fun _ => []
    maxEvents := maxEventsPerAnalysis }

/-- Model of `EventQueue.add_event_message`: build the message with a publish-time
timestamp, assign the per-analysis sequence number, bump the counter, append
to the (bounded) per-analysis deque, and put the message into every listener
queue registered for that analysis id.  `now` is `datetime.now(timezone.utc)
.isoformat()` taken inside the call.  Returns the new state and the stored
message. -/
def EventQueueState.addEventMessage (st : EventQueueState) (analysisId : String)
    (eventType : String) (executor : Option String) (data : PyData)
    (message : Option String) (now : String) : EventQueueState × EventMessage :=
  let seq := st.sequenceNumbers analysisId
  let eventMsg : EventMessage :=
    { type := eventType, executor := executor, data := data, message := message
      sequence := some seq, timestamp := some now }
  let queues' := Function.update st.queues analysisId
    (dequeAppend st.maxEvents (st.queues analysisId) eventMsg)
  let sequenceNumbers' := Function.update st.sequenceNumbers analysisId (seq + 1)
  let listeners' := Function.update st.listeners analysisId
    ((st.listeners analysisId).map (fun l => l ++ [eventMsg]))
  ({ st with queues := queues', sequenceNumbers := sequenceNumbers', listeners := listeners' },
   eventMsg)

/-- The filter key of `EventQueue.get_events`: the source evaluates
`e.data.get('sequence', 0)` — it reads the *data payload*, not the
`sequence` field the publisher assigned.  `None.get`/`str.get` raise
`AttributeError`. -/
def eventMessageDataSequence (e : EventMessage) : Except String PyVal :=
  match e.data with
  | .pdict d => .ok (pyDictGet d "sequence" (.vint 0))
  | .pnone => .error "AttributeError"
  | .pval _ => .error "AttributeError"

/-- Model of `EventQueue.get_events(analysis_id, since_sequence)`: snapshot the
per-analysis deque; with `since_sequence=s` keep the events whose
`data.get('sequence', 0)` compares greater than `s`. -/
def EventQueueState.getEvents (st : EventQueueState) (analysisId : String)
    (sinceSequence : Option Int) : Except String (List EventMessage) :=
  let events := st.queues analysisId
  match sinceSequence with
  | Option.none => .ok events
  | some s => exceptFilter (fun e => do pyValGtInt (← eventMessageDataSequence e) s) events

/-- Model of `EventQueue.register_listener(analysis_id)`: append a fresh empty
`asyncio.Queue` for the analysis id; the returned handle is its index. -/
def EventQueueState.registerListener (st : EventQueueState) (analysisId : String) :
    EventQueueState × Nat :=
  let updated := Function.update st.listeners analysisId (st.listeners analysisId ++ [[]])
  ({ st with listeners := updated }, (st.listeners analysisId).length)

/-- One call argument tuple of `EventQueue.add_event_message`, with the wall
clock reading (`now`) of that call. -/
structure AddEventMessageCall where
  eventType : String
  executor : Option String
  data : PyData
  message : Option String
  now : String
deriving DecidableEq, Repr

/-- A sequence of `add_event_message` calls for one analysis id. -/
def EventQueueState.runAddEventMessages (st : EventQueueState) (analysisId : String) :
    List AddEventMessageCall → EventQueueState × List EventMessage
  | [] => (st, [])
  | c :: cs =>
    let (st1, e) := st.addEventMessage analysisId c.eventType c.executor c.data c.message c.now
    let (st2, out) := st1.runAddEventMessages analysisId cs
    (st2, e :: out)

/-- The messages such a call sequence stores, with the sequence numbers the
broker assigns starting from `seqStart`. -/
def stampedEventMessages (seqStart : Int) : List AddEventMessageCall → List EventMessage
  | [] => []
  | c :: cs =>
    { type := c.eventType, executor := c.executor, data := c.data, message := c.message
      sequence := some seqStart, timestamp := some c.now } ::
    stampedEventMessages (seqStart + 1) cs

/-! ## `app/models/_stream_event_message.py` — `StreamEventMessage` -/

/-- Model of `StreamEventMessage` (pydantic model).  The pydantic `timestamp` default
`Field(datetime.now(timezone.utc).isoformat(), ...)` is evaluated exactly
once, when the module is imported; `mkDefault` below therefore takes that
import-time string as a parameter and plants it as the timestamp of a
message built without an explicit timestamp. -/
structure StreamEventMessage where
  type : String
  executor : Option String
  data : PyData
  message : Option String
  sequence : Option Int
  correlation_id : Option String
  timestamp : Option String
  additional_context : Option PyDict
deriving DecidableEq, Repr

/-- Model of `StreamEventMessage(type=..., executor=..., data=..., message=...)` with
every remaining field left to its pydantic default; `importTime` is the
timestamp string computed when `_stream_event_message.py` was imported. -/
def StreamEventMessage.mkDefault (importTime : String) (type : String)
    (executor : Option String) (data : PyData) (message : Option String) :
    StreamEventMessage :=
  { type := type, executor := executor, data := data, message := message
    sequence := Option.none, correlation_id := Option.none
    timestamp := some importTime, additional_context := Option.none }

/-! ## `app/utils/sse_stream_event_queue.py` — `SSEStreamEventQueue` -/

/-- The mutable state of an `SSEStreamEventQueue` instance: one bounded
deque, one sequence counter, and the registered listeners (each modelled by
the list of messages put into it). -/
structure SSEStreamEventQueueState where
  queue : List StreamEventMessage
  sequenceNumber : Int
  listeners : List (List StreamEventMessage)
  maxEvents : Nat
deriving DecidableEq, Repr

/-- A fresh `SSEStreamEventQueue(max_events)` instance. -/
def SSEStreamEventQueueState.init (maxEvents : Nat) : SSEStreamEventQueueState :=
  { queue := [], sequenceNumber := 0, listeners := [], maxEvents := maxEvents }

/-- Model of `SSEStreamEventQueue.add_event`: stamp the publish time only if the
message's timestamp is falsy, assign the next sequence number, append to the
bounded deque and put the stored message into every listener queue.  `now`
is the `datetime.now(timezone.utc).isoformat()` reading of this call.
Returns the new state and the stored (mutated) message. -/
def SSEStreamEventQueueState.addEvent (st : SSEStreamEventQueueState)
    (eventMsg : StreamEventMessage) (now : String) :
    SSEStreamEventQueueState × StreamEventMessage :=
  let eventMsg1 :=
    if pyStrOptFalsy eventMsg.timestamp then { eventMsg with timestamp := some now }
    else eventMsg
  let seq := st.sequenceNumber
  let eventMsg2 := { eventMsg1 with sequence := some seq }
  ({ st with
      queue := dequeAppend st.maxEvents st.queue eventMsg2
      sequenceNumber := seq + 1
      listeners := st.listeners.map (fun l => l ++ [eventMsg2]) },
   eventMsg2)

/-- Model of `SSEStreamEventQueue.get_events(since_sequence)`: snapshot the deque;
with `since_sequence=s` keep the events with `e.sequence > s` (this class,
unlike `EventQueue`, filters on the `sequence` field). -/
def SSEStreamEventQueueState.getEvents (st : SSEStreamEventQueueState)
    (sinceSequence : Option Int) : Except String (List StreamEventMessage) :=
  match sinceSequence with
  | Option.none => .ok st.queue
  | some s => exceptFilter (fun e => pyOptIntGt e.sequence s) st.queue

/-- Model of `SSEStreamEventQueue.register_listener()`: append a fresh empty
listener queue; the returned handle is its index. -/
def SSEStreamEventQueueState.registerListener (st : SSEStreamEventQueueState) :
    SSEStreamEventQueueState × Nat :=
  ({ st with listeners := st.listeners ++ [[]] }, st.listeners.length)

/-- A sequence of `add_event` calls (message and wall clock per call). -/
def SSEStreamEventQueueState.runAddEvents (st : SSEStreamEventQueueState) :
    List (StreamEventMessage × String) → SSEStreamEventQueueState × List StreamEventMessage
  | [] => (st, [])
  | (m, now) :: rest =>
    let (st1, e) := st.addEvent m now
    let (st2, out) := st1.runAddEvents rest
    (st2, e :: out)

/-- The messages such a call sequence stores, with the sequence numbers
assigned starting from `seqStart`. -/
def stampedStreamEvents (seqStart : Int) :
    List (StreamEventMessage × String) → List StreamEventMessage
  | [] => []
  | (m, now) :: rest =>
    { (if pyStrOptFalsy m.timestamp then { m with timestamp := some now } else m) with
        sequence := some seqStart } ::
    stampedStreamEvents (seqStart + 1) rest

/-! ## `app/what_if_chat/what_if_models.py` -/

/-- Python `str.lower()` (per-character lowercasing; the strings compared in
the executors are ASCII). -/
def pyLower (s : String) : String := ⟨s.data.map Char.toLower⟩

/-- Model of `PlanningAgentStepResponseModel`. -/
structure PlanningAgentStepResponseModel where
  number : Int
  task : String
  assigned_agent : String
deriving DecidableEq, Repr

/-- Model of `PlanningAgentResponseModel` (the structured plan). -/
structure PlanningAgentResponseModel where
  name : String
  description : String
  steps : List PlanningAgentStepResponseModel
  message : String
deriving DecidableEq, Repr

/-- Model of `agent_framework.AgentRunResponse`, reduced to the `text` the executors
read off it. -/
structure AgentRunResponse where
  text : String
deriving DecidableEq, Repr

/-- Model of `ExecutionPlan` (dataclass).  The `analysis` and `input_messages` fields
are carried opaquely by the executors and never read by the code under
verification, so they are not modelled. -/
structure ExecutionPlan where
  agent_id : String
  plan : PlanningAgentResponseModel
deriving DecidableEq, Repr

/-- Model of `AnalystAgentOutput` (dataclass). -/
structure AnalystAgentOutput where
  agent_id : String
  response : AgentRunResponse
deriving DecidableEq, Repr

/-! ## `app/what_if_chat/what_if_executors.py` — specialists and summarizer

Each specialist's `handle` filters the plan steps by a hard-coded list of
accepted (lower-cased) name variants, then, per matched step, performs one
agent invocation on the step's task, yields the response text and sends an
`AnalystAgentOutput`.  The agent invocation is the external LLM capability;
it enters the model as an oracle `run : String → String` from the invocation
message to the response text. -/

/-- What one specialist `handle` call did: the messages passed to
`_agent.run`, the texts passed to `ctx.yield_output`, and the
`AnalystAgentOutput`s passed to `ctx.send_message`, each in order. -/
structure SpecialistTrace where
  invocationInputs : List String
  yieldedOutputs : List String
  sentMessages : List AnalystAgentOutput
deriving DecidableEq, Repr

/-- The `addressed_in_steps` loop shared by all four specialists:
`step.assigned_agent.lower() in variants`. -/
def addressedInSteps (steps : List PlanningAgentStepResponseModel)
    (nameVariants : List String) : List PlanningAgentStepResponseModel :=
  steps.filter (fun step => nameVariants.contains (pyLower step.assigned_agent))

/-- The common shape of the four specialist `handle` methods. -/
def specialistHandle (run : String → String) (nameVariants : List String)
    (executorId : String) (input : ExecutionPlan) : SpecialistTrace :=
  let addressed := addressedInSteps input.plan.steps nameVariants
  { invocationInputs := addressed.map (fun step => step.task)
    yieldedOutputs := addressed.map (fun step => run step.task)
    sentMessages := addressed.map (fun step =>
      { agent_id := executorId, response := { text := run step.task } }) }

/-- Model of `FinancialAgentExecutor.handle`'s accepted name variants. -/
def financialAgentNameVariants : List String :=
  ["financial analyst agent", "financial_analyst_agent", "finance-agent", "finance agent"]

/-- Model of `RiskAgentExecutor.handle`'s accepted name variants. -/
def riskAgentNameVariants : List String :=
  ["risk analyst agent", "risk_analyst_agent", "risk-agent", "risk agent"]

/-- Model of `MarketAgentExecutor.handle`'s accepted name variants. -/
def marketAgentNameVariants : List String :=
  ["market analyst agent", "market_analyst_agent", "market-agent", "market agent"]

/-- Model of `ComplianceAgentExecutor.handle`'s accepted name variants. -/
def complianceAgentNameVariants : List String :=
  ["compliance analyst agent", "compliance_analyst_agent", "compliance-agent", "compliance agent"]

/-- Model of `FinancialAgentExecutor.handle` (default executor id). -/
def FinancialAgentExecutor.handle (run : String → String) (input : ExecutionPlan) :
    SpecialistTrace :=
  specialistHandle run financialAgentNameVariants "financial_analyst_agent_executor" input

/-- Model of `RiskAgentExecutor.handle` (default executor id). -/
def RiskAgentExecutor.handle (run : String → String) (input : ExecutionPlan) :
    SpecialistTrace :=
  specialistHandle run riskAgentNameVariants "risk_analyst_agent_executor" input

/-- Model of `MarketAgentExecutor.handle` (default executor id). -/
def MarketAgentExecutor.handle (run : String → String) (input : ExecutionPlan) :
    SpecialistTrace :=
  specialistHandle run marketAgentNameVariants "market_analyst_agent_executor" input

/-- Model of `ComplianceAgentExecutor.handle` (default executor id). -/
def ComplianceAgentExecutor.handle (run : String → String) (input : ExecutionPlan) :
    SpecialistTrace :=
  specialistHandle run complianceAgentNameVariants "compliance_analyst_agent_executor" input

/-- What one `AnalysisSummarizer.aggregate` call did. -/
structure AggregateTrace where
  invocationInputs : List String
  yieldedOutputs : List String
deriving DecidableEq, Repr

/-- Model of `AnalysisSummarizer.aggregate`: build
`agent_responses = [f"{result.agent_id}: {result.response.text}" ...]`,
join them with `"\n\n"`, run the summarizer agent once on the joined string
and yield its text. -/
def AnalysisSummarizer.aggregate (run : String → String)
    (analystOutputs : List AnalystAgentOutput) : AggregateTrace :=
  let agentResponses :=
    analystOutputs.map (fun result => result.agent_id ++ ": " ++ result.response.text)
  let combinedAnalysis := String.intercalate "\n\n" agentResponses
  { invocationInputs := [combinedAnalysis]
    yieldedOutputs := [run combinedAnalysis] }

/-! ## Conversation persistence models (`app/models`) -/

/-- Model of `agent_framework.ChatMessage`, reduced to the fields the service reads
and writes. -/
structure ChatMessage where
  role : String
  text : String
  author_name : String
deriving DecidableEq, Repr

/-- Model of `WhatIfMessage` (one persisted conversation turn). -/
structure WhatIfMessage where
  role : String
  author : String
  text : String
  content : PyData
  sequence_number : Int
deriving DecidableEq, Repr

/-- Model of `WhatIfConversation` (the stored conversation document). -/
structure WhatIfConversation where
  user_id : String
  conversation_id : String
  analysis_id : String
  title : String
  messages : List WhatIfMessage
deriving DecidableEq, Repr

/-- Model of `ConversationContext` (dataclass in `what_if_models.py`). -/
structure ConversationContext where
  conversation_id : String
  message_history : List ChatMessage
deriving DecidableEq, Repr

/-- Model of `Analysis`, reduced to an identifier: the claims under verification only
depend on whether the analysis lookup succeeds. -/
structure Analysis where
  id : String
deriving DecidableEq, Repr

/-- Model of `Opportunity`, reduced to an identifier for the same reason. -/
structure Opportunity where
  id : String
deriving DecidableEq, Repr

/-- A raised Python exception as the `except` handlers observe it:
`str(e)`, `e.__class__.__name__`, `str(e.__traceback__)`. -/
structure PyError where
  message : String
  error_type : String
  traceback : String
deriving DecidableEq, Repr

/-! ## Workflow events from `agent_framework` (external collaborator)

The two `_handle_event` methods dispatch on the class of the incoming
workflow event with an `isinstance` chain; the closed sum below is that
chain's domain. -/

/-- Model of `WorkflowRunState` (external enum).  The concrete `.value` strings live
in the external library; none of the claims depends on them. -/
inductive WorkflowRunState where
  | idle
  | failed
  | inProgress
  | other (v : String)
deriving DecidableEq, Repr

/-- Model of `state.value` of the external enum. -/
def WorkflowRunState.value : WorkflowRunState → String
  | .idle => "idle"
  | .failed => "failed"
  | .inProgress => "in_progress"
  | .other v => v

/-- The `details` payload of failure events
(`message`, `error_type`, `traceback`, `extra`, `executor_id`). -/
structure FailureDetails where
  executor_id : Option String
  message : String
  error_type : String
  traceback : String
  extra : PyVal
deriving DecidableEq, Repr

/-- The closed sum of workflow event classes both `_handle_event` methods
dispatch on. -/
inductive WorkflowEvent where
  | workflowStarted
  | workflowFailed (details : FailureDetails)
  | workflowStatus (state : WorkflowRunState)
  | executorInvoked (executor_id : String)
  | executorCompleted (executor_id : String) (data : PyData)
  | workflowOutput (source_executor_id : String) (data : PyData)
  | executorFailed (executor_id : String) (details : FailureDetails)
  | unknownEvent
deriving DecidableEq, Repr

/-- The `{"error": ..., "error_type": ..., "traceback": ..., "extra": ...}`
dict built from failure event details. -/
def failureDict (details : FailureDetails) : PyData :=
  .pdict [("error", .vstr details.message), ("error_type", .vstr details.error_type),
          ("traceback", .vstr details.traceback), ("extra", details.extra)]

/-- The `{"error": str(e), "error_type": ..., "traceback": ...}` dict built
from a caught exception in the `except` blocks. -/
def caughtErrorDict (e : PyError) : PyData :=
  .pdict [("error", .vstr e.message), ("error_type", .vstr e.error_type),
          ("traceback", .vstr e.traceback)]

/-- Model of `repr` of a primitive value, as it appears inside `str(dict)`. -/
def pyValRepr : PyVal → String
  | .vnone => "None"
  | .vstr s => "\x27" ++ s ++ "\x27"
  | .vint n => toString n

/-- Python `str()` of a payload (used for the persisted message text). -/
def pyDataStr : PyData → String
  | .pnone => "None"
  | .pval .vnone => "None"
  | .pval (.vstr s) => s
  | .pval (.vint n) => toString n
  | .pdict d =>
    "\x7b" ++ String.intercalate ", " (d.map (fun kv => "\x27" ++ kv.1 ++ "\x27: " ++ pyValRepr kv.2)) ++ "\x7d"

/-- Model of `isinstance(data, str) and data or str(data)`. -/
def pyDataUserText (d : PyData) : String :=
  match d with
  | .pval (.vstr s) => if s == "" then pyDataStr d else s
  | _ => pyDataStr d

/-- Python `executor or "Assistant"` on an `Optional[str]`. -/
def pyStrOr (o : Option String) (dflt : String) : String :=
  match o with
  | some s => if s == "" then dflt else s
  | Option.none => dflt

/-! ## `app/services/whatif_workflow_executor_service.py` -/

/-- Python `sorted(messages, key=lambda msg: msg.sequence_number)`: a stable
sort by the key, i.e. a merge sort with the `≤`-on-keys comparator. -/
def sortBySequenceNumber (msgs : List WhatIfMessage) : List WhatIfMessage :=
  msgs.mergeSort (fun m1 m2 => m1.sequence_number ≤ m2.sequence_number)

/-- Model of `WhatIfWorkflowExecutorService._try_get_conversation_context`.
`stored` is what `get_conversation_by_id` returned.  Returns the context
(`None` when the conversation exists but `conversation.messages` is falsy)
and the list of conversations newly created in the store. -/
def tryGetConversationContext (stored : Option WhatIfConversation)
    (conversationId analysisId ownerId : String) :
    Option ConversationContext × List WhatIfConversation :=
  match stored with
  | Option.none =>
    let newConversation : WhatIfConversation :=
      { user_id := ownerId, conversation_id := conversationId, analysis_id := analysisId
        title := "What If Conversation for Analysis " ++ analysisId, messages := [] }
    (some { conversation_id := conversationId, message_history := [] }, [newConversation])
  | some conversation =>
    if conversation.messages.isEmpty then (Option.none, [])
    else
      let historyMessages := sortBySequenceNumber conversation.messages
      let history := historyMessages.map (fun msg =>
        { role := msg.role, text := msg.text, author_name := msg.author : ChatMessage })
      (some { conversation_id := conversationId, message_history := history }, [])

/-- The `(message_type, executor, data, message)` computed by
`WhatIfWorkflowExecutorService._handle_event`'s `isinstance` chain. -/
def whatIfEventFields : WorkflowEvent → String × Option String × PyData × Option String
  | .workflowStarted =>
      ("workflow_started", Option.none, .pdict [], some "What If Workflow execution started")
  | .workflowFailed details =>
      ("error", details.executor_id, failureDict details, some "What If Workflow execution failed")
  | .workflowStatus state =>
      let d : PyData := .pdict [("state", .vstr state.value)]
      match state with
      | .idle => ("workflow_completed", Option.none, d, some "What If Workflow execution completed")
      | .failed => ("workflow_status", Option.none, d, some "What If Workflow execution failed")
      | .inProgress => ("workflow_status", Option.none, d, some "What If Workflow is running")
      | .other _ => ("workflow_status", Option.none, d, Option.none)
  | .executorInvoked executorId => ("executor_invoked", some executorId, .pdict [], Option.none)
  | .executorCompleted executorId data =>
      ("executor_completed", some executorId, pyDataOrEmptyDict data, Option.none)
  | .workflowOutput sourceId data =>
      (if sourceId == "planning_agent_executor" then "reasoning" else "markdown",
       some sourceId, pyDataOrEmptyDict data, Option.none)
  | .executorFailed executorId details =>
      ("executor_failed", some executorId, failureDict details, Option.none)
  | .unknownEvent => ("unknown_event", Option.none, .pdict [], Option.none)

/-- Model of `WhatIfWorkflowExecutorService._handle_event`: translate the workflow
event, publish the resulting `StreamEventMessage` (built with pydantic
defaults, hence the import-time timestamp) to the SSE queue, and, for output
events, persist an assistant turn with the given `sequence_number`.
Returns the new queue state, the stored stream message, and the turns
passed to `add_message_to_conversation`. -/
def whatIfHandleEvent (importTime publishNow : String) (st : SSEStreamEventQueueState)
    (event : WorkflowEvent) (sequenceNumber : Int) :
    SSEStreamEventQueueState × StreamEventMessage × List WhatIfMessage :=
  let (messageType, executor, data, message) := whatIfEventFields event
  let (st', stored) :=
    st.addEvent (StreamEventMessage.mkDefault importTime messageType executor data message)
      publishNow
  let persisted :=
    match event with
    | .workflowOutput _ _ =>
      [{ role := "assistant", author := pyStrOr executor "Assistant"
         text := pyDataUserText data, content := data
         sequence_number := sequenceNumber : WhatIfMessage }]
    | _ => []
  (st', stored, persisted)

/-- The event loop of `execute_workflow`: `next_seq_num` is incremented
before each event is handled. -/
def runWhatIfHandleEvents (importTime publishNow : String) :
    SSEStreamEventQueueState → Int → List WorkflowEvent →
    SSEStreamEventQueueState × List StreamEventMessage × List WhatIfMessage
  | st, _, [] => (st, [], [])
  | st, nextSeqNum, e :: es =>
    let n := nextSeqNum + 1
    let (st1, m, p) := whatIfHandleEvent importTime publishNow st e n
    let (st2, ms, ps) := runWhatIfHandleEvents importTime publishNow st1 n es
    (st2, m :: ms, p ++ ps)

/-- The inputs of one `WhatIfWorkflowExecutorService.execute_workflow` call,
including the environment the call observes: the repository lookup results,
the events the workflow stream yields, and — when `streamError` is `some e`
— the exception the stream raises after yielding them.  `importTime` is the
timestamp baked into `StreamEventMessage`'s pydantic default at module
import; `publishNow` stands for the wall clock during the run. -/
structure WhatIfExecEnv where
  importTime : String
  publishNow : String
  inputMessage : String
  conversationId : String
  analysisId : String
  opportunityId : String
  ownerId : String
  analysis : Option Analysis
  storedConversation : Option WhatIfConversation
  workflowEvents : List WorkflowEvent
  streamError : Option PyError
deriving DecidableEq, Repr

/-- The observable outcome of one `execute_workflow` call. -/
structure WhatIfExecTrace where
  createdConversations : List WhatIfConversation
  persisted : List WhatIfMessage
  workflowRan : Bool
  published : List StreamEventMessage
  queue : SSEStreamEventQueueState
deriving DecidableEq, Repr

/-- The `error` stream message published by `execute_workflow`'s `except`
block (built with pydantic defaults, hence the import-time timestamp). -/
def whatIfErrorStreamMessage (importTime : String) (e : PyError) : StreamEventMessage :=
  { type := "error", executor := Option.none, data := caughtErrorDict e
    message := some ("What-if chat workflow failed: " ++ e.message)
    sequence := Option.none, correlation_id := Option.none
    timestamp := some importTime, additional_context := Option.none }

/-- The `except` path of `execute_workflow`: publish one final `error`
event and end. -/
def whatIfFailTrace (env : WhatIfExecEnv) (st : SSEStreamEventQueueState)
    (created : List WhatIfConversation) (persisted : List WhatIfMessage)
    (workflowRan : Bool) (publishedSoFar : List StreamEventMessage) (e : PyError) :
    WhatIfExecTrace :=
  let (st', stored) := st.addEvent (whatIfErrorStreamMessage env.importTime e) env.publishNow
  { createdConversations := created, persisted := persisted, workflowRan := workflowRan
    published := publishedSoFar ++ [stored], queue := st' }

/-- Model of `WhatIfWorkflowExecutorService.execute_workflow`, from the analysis
lookup to the final event: look up the analysis (raising when absent), load
or create the conversation context, compute
`next_seq_num = len(message_history) + 1` (the truthy branch of
`... is not None and len(...) + 1 or 1`; the context's history is always a
list), persist the user turn, stream and handle the workflow events, and on
any raised exception publish one final `error` event.  A `None` context
raises `AttributeError` at the `next_seq_num` line. -/
def WhatIfWorkflowExecutorService.executeWorkflow (env : WhatIfExecEnv)
    (st0 : SSEStreamEventQueueState) : WhatIfExecTrace :=
  match env.analysis with
  | Option.none =>
    let e : PyError :=
      { message := "Analysis " ++ env.analysisId ++ " not found for opportunity " ++
          env.opportunityId
        error_type := "Exception", traceback := "None" }
    whatIfFailTrace env st0 [] [] false [] e
  | some _ =>
    let (conversationContext, created) :=
      tryGetConversationContext env.storedConversation env.conversationId env.analysisId
        env.ownerId
    match conversationContext with
    | Option.none =>
      let e : PyError :=
        { message := "'NoneType' object has no attribute 'message_history'"
          error_type := "AttributeError", traceback := "None" }
      whatIfFailTrace env st0 created [] false [] e
    | some cc =>
      let nextSeqNum : Int := cc.message_history.length + 1
      let userTurn : WhatIfMessage :=
        { role := "user", author := "User", text := env.inputMessage
          content := PyData.pnone, sequence_number := nextSeqNum }
      let (stEnd, publishedEvents, persistedAssistant) :=
        runWhatIfHandleEvents env.importTime env.publishNow st0 nextSeqNum env.workflowEvents
      match env.streamError with
      | Option.none =>
        { createdConversations := created, persisted := userTurn :: persistedAssistant
          workflowRan := true, published := publishedEvents, queue := stEnd }
      | some e =>
        whatIfFailTrace env stEnd created (userTurn :: persistedAssistant) true
          publishedEvents e

/-! ## `app/workflow/workflow_executor.py` — the investment `WorkflowExecutor` -/

/-- The `(event_type, executor, data, message)` computed by
`WorkflowExecutor._handle_event`'s `isinstance` chain (note: a failed
workflow maps to `workflow_failed` here, not `error`). -/
def invEventFields : WorkflowEvent → String × Option String × PyData × Option String
  | .workflowStarted =>
      ("workflow_started", Option.none, .pdict [], some "Workflow execution started")
  | .workflowFailed details =>
      ("workflow_failed", details.executor_id, failureDict details,
       some "Workflow execution failed")
  | .workflowStatus state =>
      ("workflow_status", Option.none, .pdict [("state", .vstr state.value)], Option.none)
  | .executorInvoked executorId => ("executor_invoked", some executorId, .pdict [], Option.none)
  | .executorCompleted executorId data =>
      ("executor_completed", some executorId, pyDataOrEmptyDict data, Option.none)
  | .workflowOutput sourceId data =>
      ("workflow_output", some sourceId, pyDataOrEmptyDict data, Option.none)
  | .executorFailed executorId details =>
      ("executor_failed", some executorId, failureDict details, Option.none)
  | .unknownEvent => ("unknown_event", Option.none, .pdict [], Option.none)

/-- The `add_event_message` call `WorkflowExecutor._handle_event` makes for
one workflow event. -/
def invAddCall (publishNow : String) (event : WorkflowEvent) : AddEventMessageCall :=
  let (eventType, executor, data, message) := invEventFields event
  { eventType := eventType, executor := executor, data := data, message := message
    now := publishNow }

/-- The inputs of one `WorkflowExecutor.execute_workflow` call. -/
structure InvExecEnv where
  publishNow : String
  analysisId : String
  opportunityId : String
  ownerId : String
  analysis : Option Analysis
  opportunity : Option Opportunity
  workflowEvents : List WorkflowEvent
  streamError : Option PyError
deriving DecidableEq, Repr

/-- The observable outcome of one `WorkflowExecutor.execute_workflow` call
(the analysis/opportunity database updates and the event persistence
attempts are side channels the claims do not touch and are not recorded). -/
structure InvExecTrace where
  published : List EventMessage
  queue : EventQueueState

/-- Model of `WorkflowExecutor.execute_workflow`: look up analysis and opportunity
(raising when absent), stream and handle the workflow events, and on any
raised exception publish one final `workflow_failed` event. -/
def WorkflowExecutor.executeWorkflow (env : InvExecEnv) (st0 : EventQueueState) :
    InvExecTrace :=
  let failWith (st : EventQueueState) (publishedSoFar : List EventMessage) (e : PyError) :
      InvExecTrace :=
    let (st', stored) := st.addEventMessage env.analysisId "workflow_failed" Option.none
      (caughtErrorDict e) (some ("Analysis workflow failed: " ++ e.message)) env.publishNow
    { published := publishedSoFar ++ [stored], queue := st' }
  match env.analysis with
  | Option.none =>
    failWith st0 []
      { message := "Analysis " ++ env.analysisId ++ " not found for opportunity " ++
          env.opportunityId
        error_type := "Exception", traceback := "None" }
  | some _ =>
    match env.opportunity with
    | Option.none =>
      failWith st0 []
        { message := "Opportunity " ++ env.opportunityId ++ " not found for owner " ++
            env.ownerId
          error_type := "Exception", traceback := "None" }
    | some _ =>
      let (st1, published) :=
        st0.runAddEventMessages env.analysisId (env.workflowEvents.map (invAddCall env.publishNow))
      match env.streamError with
      | Option.none => { published := published, queue := st1 }
      | some e => failWith st1 published e

/-! ## Helper lemmas about the bounded deque and the publish folds -/

theorem dequeAppend_length_le_of_le (N : Nat) (q : List α) (x : α) (h : q.length ≤ N) :
    (dequeAppend N q x).length ≤ N := by
  simp only [dequeAppend, List.length_drop, List.length_append, List.length_singleton]
  omega

theorem dequeAppend_append_drop (N : Nat) (q : List α) (x : α) (S : List α) :
    (dequeAppend N q x ++ S).drop ((dequeAppend N q x).length + S.length - N) =
      (q ++ x :: S).drop (q.length + (S.length + 1) - N) := by
  have hd : q.length + 1 - N ≤ (q ++ [x]).length := by
    simp only [List.length_append, List.length_singleton]; omega
  simp only [dequeAppend, List.length_append, List.length_singleton]
  rw [← List.drop_append_of_le_length hd, List.drop_drop]
  have hq : (q ++ [x]) ++ S = q ++ x :: S := by simp
  rw [hq]
  congr 1
  simp only [List.length_drop, List.length_append, List.length_singleton]
  omega

theorem stampedStreamEvents_length (s : Int) (msgs : List (StreamEventMessage × String)) :
    (stampedStreamEvents s msgs).length = msgs.length := by
  induction msgs generalizing s with
  | nil => rfl
  | cons head tail ih =>
    obtain ⟨m, now⟩ := head
    simp [stampedStreamEvents, ih]

/-- Full characterization of a sequence of `SSEStreamEventQueue.add_event`
calls: the stored messages are the inputs stamped with consecutive sequence
numbers, the deque keeps the most recent `maxEvents` of everything it ever
held, the counter advances by the number of publishes, and every listener
receives exactly the stored messages, in order. -/
theorem runAddEvents_eq (msgs : List (StreamEventMessage × String)) :
    ∀ (st : SSEStreamEventQueueState), st.queue.length ≤ st.maxEvents →
    st.runAddEvents msgs =
      ({ queue := (st.queue ++ stampedStreamEvents st.sequenceNumber msgs).drop
            (st.queue.length + msgs.length - st.maxEvents)
         sequenceNumber := st.sequenceNumber + msgs.length
         listeners := st.listeners.map (fun l => l ++ stampedStreamEvents st.sequenceNumber msgs)
         maxEvents := st.maxEvents },
       stampedStreamEvents st.sequenceNumber msgs) := by
  induction msgs with
  | nil =>
    intro st h
    obtain ⟨q, s, ls, N⟩ := st
    simp only at h
    have h0 : q.length - N = 0 := by omega
    simp [SSEStreamEventQueueState.runAddEvents, stampedStreamEvents, h0]
  | cons head tail ih =>
    intro st h
    obtain ⟨m, now⟩ := head
    obtain ⟨q, s, ls, N⟩ := st
    simp only at h
    simp only [SSEStreamEventQueueState.runAddEvents, SSEStreamEventQueueState.addEvent]
    rw [ih _ (dequeAppend_length_le_of_le N q _ h)]
    simp only [stampedStreamEvents, Prod.mk.injEq, SSEStreamEventQueueState.mk.injEq]
    refine ⟨⟨?_, ?_, ?_, trivial⟩, trivial⟩
    · have := dequeAppend_append_drop N q
        ({ (if pyStrOptFalsy m.timestamp then { m with timestamp := some now } else m) with
            sequence := some s })
        (stampedStreamEvents (s + 1) tail)
      simp only [stampedStreamEvents_length] at this ⊢
      simpa using this
    · simp only [List.length_cons]; push_cast; ring
    · simp [List.map_map, Function.comp]
theorem stampedEventMessages_length (s : Int) (calls : List AddEventMessageCall) :
    (stampedEventMessages s calls).length = calls.length := by
  induction calls generalizing s with
  | nil => rfl
  | cons c cs ih => simp [stampedEventMessages, ih]

/-- Full characterization of a sequence of `EventQueue.add_event_message`
calls for one analysis id, including the frame property: the state kept for
every other analysis id is untouched. -/
theorem runAddEventMessages_spec (calls : List AddEventMessageCall) :
    ∀ (st : EventQueueState) (a : String), (st.queues a).length ≤ st.maxEvents →
    (st.runAddEventMessages a calls).2 = stampedEventMessages (st.sequenceNumbers a) calls ∧
    (st.runAddEventMessages a calls).1.queues a =
      ((st.queues a) ++ stampedEventMessages (st.sequenceNumbers a) calls).drop
        ((st.queues a).length + calls.length - st.maxEvents) ∧
    (st.runAddEventMessages a calls).1.sequenceNumbers a =
      st.sequenceNumbers a + calls.length ∧
    (st.runAddEventMessages a calls).1.listeners a =
      (st.listeners a).map (fun l => l ++ stampedEventMessages (st.sequenceNumbers a) calls) ∧
    (st.runAddEventMessages a calls).1.maxEvents = st.maxEvents ∧
    ∀ b, b ≠ a →
      (st.runAddEventMessages a calls).1.queues b = st.queues b ∧
      (st.runAddEventMessages a calls).1.sequenceNumbers b = st.sequenceNumbers b ∧
      (st.runAddEventMessages a calls).1.listeners b = st.listeners b := by
  induction calls with
  | nil =>
    intro st a h
    have h0 : (st.queues a).length - st.maxEvents = 0 := by omega
    simp [EventQueueState.runAddEventMessages, stampedEventMessages, h0]
  | cons c cs ih =>
    intro st a h
    simp only [EventQueueState.runAddEventMessages, EventQueueState.addEventMessage]
    set e : EventMessage :=
      { type := c.eventType, executor := c.executor, data := c.data, message := c.message
        sequence := some (st.sequenceNumbers a), timestamp := some c.now } with he
    set st1 : EventQueueState :=
      { st with
        queues := Function.update st.queues a (dequeAppend st.maxEvents (st.queues a) e)
        sequenceNumbers := Function.update st.sequenceNumbers a (st.sequenceNumbers a + 1)
        listeners := Function.update st.listeners a
          ((st.listeners a).map (fun l => l ++ [e])) } with hst1
    have hq1 : st1.queues a = dequeAppend st.maxEvents (st.queues a) e := by
      simp [hst1, Function.update_same]
    have hlen1 : (st1.queues a).length ≤ st1.maxEvents := by
      rw [hq1]
      exact dequeAppend_length_le_of_le _ _ _ h
    obtain ⟨ih1, ih2, ih3, ih4, ih5, ih6⟩ := ih st1 a hlen1
    have hs1 : st1.sequenceNumbers a = st.sequenceNumbers a + 1 := by
      simp [hst1, Function.update_same]
    have hl1 : st1.listeners a = (st.listeners a).map (fun l => l ++ [e]) := by
      simp [hst1, Function.update_same]
    have hstamp : stampedEventMessages (st.sequenceNumbers a) (c :: cs) =
        e :: stampedEventMessages (st.sequenceNumbers a + 1) cs := by
      simp [stampedEventMessages, he]
    refine ⟨?_, ?_, ?_, ?_, ?_, ?_⟩
    · simp only [ih1, hstamp, Function.update_same]
    · rw [ih2, hq1, hs1, hstamp]
      have := dequeAppend_append_drop st.maxEvents (st.queues a) e
        (stampedEventMessages (st.sequenceNumbers a + 1) cs)
      simp only [stampedEventMessages_length, List.length_cons] at this ⊢
      rw [this]
    · rw [ih3, hs1]
      simp only [List.length_cons]
      push_cast
      ring
    · rw [ih4, hl1, hs1, hstamp]
      simp [List.map_map, Function.comp]
    · rw [ih5]
    · intro b hb
      obtain ⟨f1, f2, f3⟩ := ih6 b hb
      refine ⟨?_, ?_, ?_⟩
      · rw [f1, hst1]
        exact congrFun (congrArg _ rfl) b |>.trans (Function.update_noteq hb _ _)
      · rw [f2, hst1]
        exact Function.update_noteq hb _ _
      · rw [f3, hst1]
        exact Function.update_noteq hb _ _
theorem stampedStreamEvents_map_sequence (s : Int) (msgs : List (StreamEventMessage × String)) :
    (stampedStreamEvents s msgs).map (fun e => e.sequence) =
      (List.range msgs.length).map (fun i : Nat => some (s + (i : Int))) := by
  induction msgs generalizing s with
  | nil => rfl
  | cons head tail ih =>
    obtain ⟨m, now⟩ := head
    simp only [stampedStreamEvents, List.map_cons, List.length_cons,
      List.range_succ_eq_map, List.map_map, ih]
    congr 1
    · simp
    · congr 1
      funext i
      simp only [Function.comp_apply]
      congr 1
      push_cast
      ring

theorem stampedEventMessages_map_sequence (s : Int) (calls : List AddEventMessageCall) :
    (stampedEventMessages s calls).map (fun e => e.sequence) =
      (List.range calls.length).map (fun i : Nat => some (s + (i : Int))) := by
  induction calls generalizing s with
  | nil => rfl
  | cons c cs ih =>
    simp only [stampedEventMessages, List.map_cons, List.length_cons,
      List.range_succ_eq_map, List.map_map, ih]
    congr 1
    · simp
    · congr 1
      funext i
      simp only [Function.comp_apply]
      congr 1
      push_cast
      ring

/-! ## Claim theorems -/

/-- C1: the claim says `EventQueue.get_events` and
`SSEStreamEventQueue.get_events` with `since_sequence = s` return exactly
the buffered events whose assigned sequence number is greater than `s`.
This theorem evaluates the code at a failing input: after five publishes
for one analysis id (sequence numbers 0..4, each event carrying the usual
dict payload), `EventQueue.get_events(..., since_sequence = 2)` returns `[]`
instead of the two events with sequence 3 and 4, because the source filters
on `e.data.get('sequence', 0)` instead of `e.sequence`; with `data = None`
the same filter raises `AttributeError`.  The sibling
`SSEStreamEventQueue.get_events` filters on the `sequence` field and does
return exactly the events with sequence greater than 2. -/
theorem c1_eventqueue_filter_reads_data_not_sequence :
    (((EventQueueState.init 1000).runAddEventMessages "analysis-1"
        (List.replicate 5
          { eventType := "executor_completed", executor := some "planning_agent"
            data := PyData.pdict [], message := Option.none, now := "t0" })).1.queues
        "analysis-1").map (fun e => e.sequence) =
      [some 0, some 1, some 2, some 3, some 4] ∧
    ((EventQueueState.init 1000).runAddEventMessages "analysis-1"
        (List.replicate 5
          { eventType := "executor_completed", executor := some "planning_agent"
            data := PyData.pdict [], message := Option.none, now := "t0" })).1.getEvents
        "analysis-1" (some 2) = .ok [] ∧
    ((EventQueueState.init 1000).runAddEventMessages "analysis-1"
        (List.replicate 5
          { eventType := "executor_completed", executor := Option.none
            data := PyData.pnone, message := Option.none, now := "t0" })).1.getEvents
        "analysis-1" (some 2) = .error "AttributeError" ∧
    (((SSEStreamEventQueueState.init 1000).runAddEvents
        (List.replicate 5
          ({ type := "executor_completed", executor := some "planning_agent"
             data := PyData.pdict [], message := Option.none, sequence := Option.none
             correlation_id := Option.none, timestamp := some "t0"
             additional_context := Option.none }, "t0"))).1.getEvents (some 2) =
      .ok (((SSEStreamEventQueueState.init 1000).runAddEvents
        (List.replicate 5
          ({ type := "executor_completed", executor := some "planning_agent"
             data := PyData.pdict [], message := Option.none, sequence := Option.none
             correlation_id := Option.none, timestamp := some "t0"
             additional_context := Option.none }, "t0"))).2.drop 3)) := by
  refine ⟨rfl, rfl, rfl, rfl⟩

/-- C2: for every sequence of `n` publish calls on one broker session
(either an `SSEStreamEventQueue` or one analysis id of an `EventQueue`),
the assigned sequence values are exactly `0, 1, ..., n-1`; the ring buffer
of capacity `N` keeps the last `min(n, N)` stored messages unchanged (the
buffer is literally a suffix of the list of stored messages, so assigned
sequence numbers never change on eviction), `history` returns exactly that
buffer, and with capacity 2 three publishes leave the events with
sequences 1 and 2. -/
theorem c2_sequences_strictly_increase_and_oldest_evicted :
    (∀ (maxEvents : Nat) (msgs : List (StreamEventMessage × String)),
      ((SSEStreamEventQueueState.init maxEvents).runAddEvents msgs).2.map
          (fun e => e.sequence) =
        (List.range msgs.length).map (fun i : Nat => some (i : Int)) ∧
      ((SSEStreamEventQueueState.init maxEvents).runAddEvents msgs).1.sequenceNumber =
        msgs.length ∧
      ((SSEStreamEventQueueState.init maxEvents).runAddEvents msgs).1.queue =
        ((SSEStreamEventQueueState.init maxEvents).runAddEvents msgs).2.drop
          (msgs.length - maxEvents) ∧
      ((SSEStreamEventQueueState.init maxEvents).runAddEvents msgs).1.queue.length =
        min msgs.length maxEvents ∧
      ((SSEStreamEventQueueState.init maxEvents).runAddEvents msgs).1.getEvents Option.none =
        .ok (((SSEStreamEventQueueState.init maxEvents).runAddEvents msgs).2.drop
          (msgs.length - maxEvents))) ∧
    (∀ (maxEvents : Nat) (analysisId : String) (calls : List AddEventMessageCall),
      ((EventQueueState.init maxEvents).runAddEventMessages analysisId calls).2.map
          (fun e => e.sequence) =
        (List.range calls.length).map (fun i : Nat => some (i : Int)) ∧
      ((EventQueueState.init maxEvents).runAddEventMessages analysisId calls).1.sequenceNumbers
          analysisId = calls.length ∧
      ((EventQueueState.init maxEvents).runAddEventMessages analysisId calls).1.queues
          analysisId =
        ((EventQueueState.init maxEvents).runAddEventMessages analysisId calls).2.drop
          (calls.length - maxEvents) ∧
      ((EventQueueState.init maxEvents).runAddEventMessages analysisId calls).1.getEvents
          analysisId Option.none =
        .ok (((EventQueueState.init maxEvents).runAddEventMessages analysisId calls).2.drop
          (calls.length - maxEvents))) ∧
    (∀ (m0 m1 m2 : StreamEventMessage) (n0 n1 n2 : String),
      ((SSEStreamEventQueueState.init 2).runAddEvents
          [(m0, n0), (m1, n1), (m2, n2)]).1.queue.map (fun e => e.sequence) =
        [some 1, some 2]) := by
  have hinit : ∀ N : Nat, ((SSEStreamEventQueueState.init N).queue).length ≤
      (SSEStreamEventQueueState.init N).maxEvents := by
    intro N; simp [SSEStreamEventQueueState.init]
  refine ⟨?_, ?_, ?_⟩
  · intro N msgs
    have H := runAddEvents_eq msgs (SSEStreamEventQueueState.init N) (hinit N)
    refine ⟨?_, ?_, ?_, ?_, ?_⟩
    · rw [H]
      simpa [SSEStreamEventQueueState.init] using stampedStreamEvents_map_sequence 0 msgs
    · rw [H]; simp [SSEStreamEventQueueState.init]
    · rw [H]; simp [SSEStreamEventQueueState.init]
    · rw [H]
      simp only [SSEStreamEventQueueState.init, List.nil_append, List.length_nil,
        Nat.zero_add, List.length_drop, stampedStreamEvents_length]
      omega
    · rw [H]
      simp [SSEStreamEventQueueState.init, SSEStreamEventQueueState.getEvents]
  · intro N a calls
    obtain ⟨h1, h2, h3, h4, h5, h6⟩ := runAddEventMessages_spec calls (EventQueueState.init N) a
      (by simp [EventQueueState.init])
    refine ⟨?_, ?_, ?_, ?_⟩
    · rw [h1]
      simpa [EventQueueState.init] using stampedEventMessages_map_sequence 0 calls
    · rw [h3]; simp [EventQueueState.init]
    · rw [h2, h1]
      simp [EventQueueState.init]
    · simp only [EventQueueState.getEvents]
      rw [h2, h1]
      simp [EventQueueState.init]
  · intro m0 m1 m2 n0 n1 n2
    have H := runAddEvents_eq [(m0, n0), (m1, n1), (m2, n2)] (SSEStreamEventQueueState.init 2)
      (hinit 2)
    rw [H]
    simp [SSEStreamEventQueueState.init, stampedStreamEvents]

/-- C3: a listener channel registered via
`register_listener` before a series of publish calls on the same broker
session receives exactly the published events, in publish order (so all of
them, exactly once each, with no duplication or reordering), and nothing
published before it subscribed — its buffer equals the publish-output list
itself.  Stated for `SSEStreamEventQueue` and for one analysis id of
`EventQueue`, from any state whose buffer respects the capacity bound. -/
theorem c3_listener_receives_exactly_the_published_events :
    (∀ (st : SSEStreamEventQueueState) (msgs : List (StreamEventMessage × String)),
      st.queue.length ≤ st.maxEvents →
      ((st.registerListener.1.runAddEvents msgs).1.listeners).getD st.registerListener.2 [] =
        (st.registerListener.1.runAddEvents msgs).2) ∧
    (∀ (st : EventQueueState) (analysisId : String) (calls : List AddEventMessageCall),
      (st.queues analysisId).length ≤ st.maxEvents →
      (((st.registerListener analysisId).1.runAddEventMessages analysisId calls).1.listeners
          analysisId).getD (st.registerListener analysisId).2 [] =
        ((st.registerListener analysisId).1.runAddEventMessages analysisId calls).2) := by
  constructor
  · intro st msgs h
    have H := runAddEvents_eq msgs st.registerListener.1
      (by simpa [SSEStreamEventQueueState.registerListener] using h)
    rw [H]
    simp [SSEStreamEventQueueState.registerListener, List.getD_eq_getElem?_getD,
      List.map_append, List.getElem?_append_right]
  · intro st a calls h
    have hreg : ((st.registerListener a).1.queues a).length ≤
        (st.registerListener a).1.maxEvents := by
      simpa [EventQueueState.registerListener] using h
    obtain ⟨h1, _, _, h4, _, _⟩ := runAddEventMessages_spec calls (st.registerListener a).1 a hreg
    rw [h1, h4]
    simp [EventQueueState.registerListener, Function.update_same, List.getD_eq_getElem?_getD,
      List.map_append, List.getElem?_append_right]

/-- C4: the claim says every published event's timestamp is assigned at
publish time.  This theorem evaluates the code at a failing input:
`StreamEventMessage`'s pydantic default timestamp is computed once at
module import, so a message built without an explicit timestamp enters
`SSEStreamEventQueue.add_event` with a truthy timestamp and the publish
clock is never written — the stored event keeps the import-time value.
`EventQueue.add_event_message`, in contrast, does stamp the publish time. -/
theorem c4_sse_timestamp_is_import_time_not_publish_time :
    ((SSEStreamEventQueueState.init 1000).addEvent
        (StreamEventMessage.mkDefault "2026-01-01T00:00:00+00:00" "markdown"
          (some "financial_analyst_agent_executor") (PyData.pdict []) Option.none)
        "2026-03-05T10:00:00+00:00").2.timestamp = some "2026-01-01T00:00:00+00:00" ∧
    ("2026-01-01T00:00:00+00:00" : String) ≠ "2026-03-05T10:00:00+00:00" ∧
    ((EventQueueState.init 1000).addEventMessage "analysis-1" "workflow_started" Option.none
        PyData.pnone Option.none "2026-03-05T10:00:00+00:00").2.timestamp =
      some "2026-03-05T10:00:00+00:00" := by
  refine ⟨rfl, by decide, rfl⟩

/-- C9: the shared `EventQueue` isolates sessions by analysis id — one
`add_event_message` for analysis id `a` leaves the buffer, the sequence
counter and the listener list of every other analysis id `b` unchanged, so
`get_events(b, ...)` returns the same result before and after the call and
no listener registered under `b` receives the event. -/
theorem c9_event_queue_isolates_analysis_ids (st : EventQueueState) (a b : String)
    (eventType : String) (executor : Option String) (data : PyData)
    (message : Option String) (now : String) (sinceSequence : Option Int) (hab : b ≠ a) :
    (st.addEventMessage a eventType executor data message now).1.queues b = st.queues b ∧
    (st.addEventMessage a eventType executor data message now).1.sequenceNumbers b =
      st.sequenceNumbers b ∧
    (st.addEventMessage a eventType executor data message now).1.listeners b =
      st.listeners b ∧
    (st.addEventMessage a eventType executor data message now).1.getEvents b sinceSequence =
      st.getEvents b sinceSequence := by
  have hq : (st.addEventMessage a eventType executor data message now).1.queues b =
      st.queues b := by
    simp [EventQueueState.addEventMessage, Function.update_noteq hab]
  refine ⟨hq, ?_, ?_, ?_⟩
  · simp [EventQueueState.addEventMessage, Function.update_noteq hab]
  · simp [EventQueueState.addEventMessage, Function.update_noteq hab]
  · simp only [EventQueueState.getEvents, hq]

/-- Witness for C9 at a concrete state and distinct analysis ids. -/
theorem c9_witness :
    (("analysis-2" : String) ≠ "analysis-1") ∧
    (((EventQueueState.init 3).addEventMessage "analysis-1" "workflow_started" Option.none
        (PyData.pdict []) Option.none "t0").1.queues "analysis-2" =
      (EventQueueState.init 3).queues "analysis-2" ∧
    ((EventQueueState.init 3).addEventMessage "analysis-1" "workflow_started" Option.none
        (PyData.pdict []) Option.none "t0").1.sequenceNumbers "analysis-2" =
      (EventQueueState.init 3).sequenceNumbers "analysis-2" ∧
    ((EventQueueState.init 3).addEventMessage "analysis-1" "workflow_started" Option.none
        (PyData.pdict []) Option.none "t0").1.listeners "analysis-2" =
      (EventQueueState.init 3).listeners "analysis-2" ∧
    ((EventQueueState.init 3).addEventMessage "analysis-1" "workflow_started" Option.none
        (PyData.pdict []) Option.none "t0").1.getEvents "analysis-2" (some 0) =
      (EventQueueState.init 3).getEvents "analysis-2" (some 0)) :=
  ⟨by decide,
   c9_event_queue_isolates_analysis_ids (EventQueueState.init 3) "analysis-1" "analysis-2"
     "workflow_started" Option.none (PyData.pdict []) Option.none "t0" (some 0) (by decide)⟩

/-- Witness for C3 at a concrete initial state and one publish after the
listener registers. -/
theorem c3_witness :
    (SSEStreamEventQueueState.init 4).queue.length ≤
      (SSEStreamEventQueueState.init 4).maxEvents ∧
    (((SSEStreamEventQueueState.init 4).registerListener.1.runAddEvents
        [(StreamEventMessage.mkDefault "t0" "workflow_started" Option.none (PyData.pdict [])
            Option.none, "t1")]).1.listeners).getD
        (SSEStreamEventQueueState.init 4).registerListener.2 [] =
      ((SSEStreamEventQueueState.init 4).registerListener.1.runAddEvents
        [(StreamEventMessage.mkDefault "t0" "workflow_started" Option.none (PyData.pdict [])
            Option.none, "t1")]).2 :=
  ⟨by decide,
   c3_listener_receives_exactly_the_published_events.1 (SSEStreamEventQueueState.init 4) _
     (by decide)⟩
/-- C5: specialist assignment resolution is case-insensitive and
alias-aware.  A step whose `assigned_agent` is `"Finance-Agent"` is matched
by exactly the same specialists as one whose `assigned_agent` is
`"financial_analyst_agent"` (namely the financial specialist and no other);
a step whose lower-cased `assigned_agent` matches none of a specialist's
accepted name variants is absent from that specialist's assigned-step list;
and a specialist with zero matched steps performs no agent invocation and
sends no output message. -/
theorem c5_assignment_resolution_case_insensitive_and_alias_aware :
    (∀ nameVariants ∈ [financialAgentNameVariants, riskAgentNameVariants,
        marketAgentNameVariants, complianceAgentNameVariants],
      nameVariants.contains (pyLower "Finance-Agent") =
        nameVariants.contains (pyLower "financial_analyst_agent")) ∧
    financialAgentNameVariants.contains (pyLower "Finance-Agent") = true ∧
    (∀ (steps : List PlanningAgentStepResponseModel) (nameVariants : List String)
        (step : PlanningAgentStepResponseModel),
      nameVariants.contains (pyLower step.assigned_agent) = false →
      step ∉ addressedInSteps steps nameVariants) ∧
    (∀ (run : String → String) (nameVariants : List String) (executorId : String)
        (input : ExecutionPlan),
      addressedInSteps input.plan.steps nameVariants = [] →
      specialistHandle run nameVariants executorId input =
        { invocationInputs := [], yieldedOutputs := [], sentMessages := [] }) ∧
    (∀ (run : String → String) (input : ExecutionPlan),
      addressedInSteps input.plan.steps financialAgentNameVariants = [] →
      FinancialAgentExecutor.handle run input =
        { invocationInputs := [], yieldedOutputs := [], sentMessages := [] }) := by
  refine ⟨by decide, by decide, ?_, ?_, ?_⟩
  · intro steps nameVariants step hmiss hmem
    have := (List.mem_filter.mp hmem).2
    simp only [addressedInSteps] at this hmem
    rw [List.mem_filter] at hmem
    rw [hmiss] at hmem
    exact Bool.false_ne_true hmem.2
  · intro run nameVariants executorId input hempty
    simp [specialistHandle, hempty]
  · intro run input hempty
    simp [FinancialAgentExecutor.handle, specialistHandle, hempty]

/-- Witness for C5: a plan with one step for `"Finance-Agent"` and one step
for an unknown agent, checked against the financial and risk specialists. -/
theorem c5_witness :
    (riskAgentNameVariants.contains
        (pyLower ({ number := 1, task := "t", assigned_agent := "Quant-Agent" } :
          PlanningAgentStepResponseModel).assigned_agent) = false ∧
      ({ number := 1, task := "t", assigned_agent := "Quant-Agent" } :
          PlanningAgentStepResponseModel) ∉
        addressedInSteps
          [{ number := 1, task := "t", assigned_agent := "Quant-Agent" }]
          riskAgentNameVariants) ∧
    (addressedInSteps
        [{ number := 1, task := "t", assigned_agent := "Finance-Agent" }]
        riskAgentNameVariants = [] ∧
      RiskAgentExecutor.handle (fun s => s)
          { agent_id := "planning_agent"
            plan := { name := "p", description := "d", message := "m"
                      steps := [{ number := 1, task := "t"
                                  assigned_agent := "Finance-Agent" }] } } =
        { invocationInputs := [], yieldedOutputs := [], sentMessages := [] }) :=
  ⟨⟨by decide,
    c5_assignment_resolution_case_insensitive_and_alias_aware.2.2.1
      [{ number := 1, task := "t", assigned_agent := "Quant-Agent" }] riskAgentNameVariants
      { number := 1, task := "t", assigned_agent := "Quant-Agent" } (by decide)⟩,
   ⟨by decide,
    by
      have h := c5_assignment_resolution_case_insensitive_and_alias_aware.2.2.2.1
        (fun s => s) riskAgentNameVariants "risk_analyst_agent_executor"
        { agent_id := "planning_agent"
          plan := { name := "p", description := "d", message := "m"
                    steps := [{ number := 1, task := "t"
                                assigned_agent := "Finance-Agent" }] } } (by decide)
      exact h⟩⟩

theorem string_intercalate_go_append (sep : String) (l : List String)
    (acc1 acc2 : String) :
    String.intercalate.go (acc1 ++ acc2) sep l = acc1 ++ String.intercalate.go acc2 sep l := by
  induction l generalizing acc2 with
  | nil => rfl
  | cons a as ih =>
    show String.intercalate.go (acc1 ++ acc2 ++ sep ++ a) sep as =
      acc1 ++ String.intercalate.go (acc2 ++ sep ++ a) sep as
    rw [String.append_assoc, String.append_assoc, ih, ← String.append_assoc acc2 sep a]

/-- Joining the per-specialist strings: the claim's reading, defined by
recursion on the list (the concatenation, in list order, of the formatted
entries, separated by blank lines). -/
def claimAggregatedInput : List AnalystAgentOutput → String
  | [] => ""
  | [r] => r.agent_id ++ ": " ++ r.response.text
  | r :: rest => r.agent_id ++ ": " ++ r.response.text ++ "\n\n" ++ claimAggregatedInput rest

theorem string_intercalate_cons_cons (sep a b : String) (l : List String) :
    String.intercalate sep (a :: b :: l) = a ++ sep ++ String.intercalate sep (b :: l) := by
  show String.intercalate.go (a ++ sep ++ b) sep l = a ++ sep ++ String.intercalate.go b sep l
  exact string_intercalate_go_append sep l (a ++ sep) b

theorem combined_analysis_eq_claimAggregatedInput (analystOutputs : List AnalystAgentOutput) :
    String.intercalate "\n\n"
        (analystOutputs.map (fun result => result.agent_id ++ ": " ++ result.response.text)) =
      claimAggregatedInput analystOutputs := by
  induction analystOutputs with
  | nil => rfl
  | cons r rest ih =>
    cases rest with
    | nil => rfl
    | cons r2 rest2 =>
      simp only [List.map_cons] at ih ⊢
      rw [string_intercalate_cons_cons, ih]
      rfl

/-- C6: for every list of collected per-specialist outputs, the aggregator
performs exactly one stage invocation, whose input is the concatenation, in
list order, of `"{specialist_id}: {specialist_output_text}"` over the
entries, and yields that invocation's text as the final (and only) output. -/
theorem c6_aggregator_single_invocation_over_concatenation
    (run : String → String) (analystOutputs : List AnalystAgentOutput) :
    AnalysisSummarizer.aggregate run analystOutputs =
      { invocationInputs := [claimAggregatedInput analystOutputs]
        yieldedOutputs := [run (claimAggregatedInput analystOutputs)] } := by
  simp [AnalysisSummarizer.aggregate, combined_analysis_eq_claimAggregatedInput]
theorem sortBySequenceNumber_perm (msgs : List WhatIfMessage) :
    (sortBySequenceNumber msgs).Perm msgs :=
  List.mergeSort_perm msgs _

theorem sortBySequenceNumber_sorted (msgs : List WhatIfMessage) :
    List.Pairwise (fun m1 m2 : WhatIfMessage => m1.sequence_number ≤ m2.sequence_number)
      (sortBySequenceNumber msgs) := by
  have h := @List.sorted_mergeSort WhatIfMessage
    (fun m1 m2 => decide (m1.sequence_number ≤ m2.sequence_number))
    (by
      intro x y z h1 h2
      simp only [decide_eq_true_eq] at h1 h2 ⊢
      omega)
    (by
      intro x y
      simp only [Bool.or_eq_true, decide_eq_true_eq]
      omega)
    msgs
  exact h.imp (by intro x y hxy; simpa using hxy)

/-- A published stream event keeps the `type`, `data` and `message` of the
message handed to `add_event` (only `timestamp`/`sequence` are touched). -/
theorem addEvent_snd_fields (st : SSEStreamEventQueueState) (m : StreamEventMessage)
    (now : String) :
    ((st.addEvent m now).2).type = m.type ∧ ((st.addEvent m now).2).data = m.data ∧
      ((st.addEvent m now).2).message = m.message := by
  unfold SSEStreamEventQueueState.addEvent
  dsimp only
  split <;> exact ⟨rfl, rfl, rfl⟩

/-- C7 (amended): for every conversation that is new (not yet stored) or
has `k ≥ 1` persisted turns, the turn number assigned to the incoming user
message is `k + 1` (so a conversation with 3 persisted turns gets 4), and
the loaded conversation history is the persisted turns sorted ascending by
`sequence_number` (a permutation of them, pairwise non-decreasing).  The
original claim, quantified over *every* conversation, fails when the stored
conversation exists with an empty message list (see the counterexample). -/
theorem c7_turn_numbering_amended (env : WhatIfExecEnv) (st0 : SSEStreamEventQueueState)
    (a : Analysis) (ha : env.analysis = some a) :
    (env.storedConversation = Option.none →
      (WhatIfWorkflowExecutorService.executeWorkflow env st0).persisted.head? =
        some { role := "user", author := "User", text := env.inputMessage
               content := PyData.pnone, sequence_number := 1 } ∧
      (tryGetConversationContext env.storedConversation env.conversationId env.analysisId
          env.ownerId).1 =
        some { conversation_id := env.conversationId, message_history := [] }) ∧
    (∀ conv : WhatIfConversation, env.storedConversation = some conv → conv.messages ≠ [] →
      (WhatIfWorkflowExecutorService.executeWorkflow env st0).persisted.head? =
        some { role := "user", author := "User", text := env.inputMessage
               content := PyData.pnone
               sequence_number := (conv.messages.length : Int) + 1 } ∧
      (tryGetConversationContext env.storedConversation env.conversationId env.analysisId
          env.ownerId).1 =
        some { conversation_id := env.conversationId
               message_history := (sortBySequenceNumber conv.messages).map (fun msg =>
                 { role := msg.role, text := msg.text, author_name := msg.author }) } ∧
      (sortBySequenceNumber conv.messages).Perm conv.messages ∧
      List.Pairwise (fun m1 m2 : WhatIfMessage => m1.sequence_number ≤ m2.sequence_number)
        (sortBySequenceNumber conv.messages)) := by
  constructor
  · intro h0
    constructor
    · cases he : env.streamError <;>
        simp [WhatIfWorkflowExecutorService.executeWorkflow, ha, h0, he,
          tryGetConversationContext, whatIfFailTrace]
    · simp [tryGetConversationContext, h0]
  · intro conv hc hne
    have hempty : conv.messages.isEmpty = false := by
      cases hm : conv.messages with
      | nil => exact absurd hm hne
      | cons x xs => rfl
    refine ⟨?_, ?_, sortBySequenceNumber_perm conv.messages,
      sortBySequenceNumber_sorted conv.messages⟩
    · have hlen : ((sortBySequenceNumber conv.messages).map (fun msg =>
          { role := msg.role, text := msg.text, author_name := msg.author : ChatMessage })).length =
            conv.messages.length := by
        rw [List.length_map]
        exact (sortBySequenceNumber_perm conv.messages).length_eq
      cases he : env.streamError <;>
        simp [WhatIfWorkflowExecutorService.executeWorkflow, ha, hc, he, hempty,
          tryGetConversationContext, whatIfFailTrace, hlen]
    · simp [tryGetConversationContext, hc, hempty]

/-- C7 counterexample: the claim as stated quantifies over every
conversation with `k` persisted turns.  For a stored conversation with an
empty message list (`k = 0`), `execute_workflow` persists nothing at all —
no turn number `k + 1 = 1` is ever assigned to the incoming user message;
the run instead fails before the workflow starts, publishing one `error`
event. -/
theorem c7_counterexample_existing_empty_conversation :
    (WhatIfWorkflowExecutorService.executeWorkflow
        { importTime := "t0", publishNow := "t1", inputMessage := "What if rates rise?"
          conversationId := "c1", analysisId := "a1", opportunityId := "o1", ownerId := "u1"
          analysis := some { id := "a1" }
          storedConversation := some
            { user_id := "u1", conversation_id := "c1", analysis_id := "a1"
              title := "What If Conversation for Analysis a1", messages := [] }
          workflowEvents := [], streamError := Option.none }
        (SSEStreamEventQueueState.init 1000)).persisted = [] ∧
    (WhatIfWorkflowExecutorService.executeWorkflow
        { importTime := "t0", publishNow := "t1", inputMessage := "What if rates rise?"
          conversationId := "c1", analysisId := "a1", opportunityId := "o1", ownerId := "u1"
          analysis := some { id := "a1" }
          storedConversation := some
            { user_id := "u1", conversation_id := "c1", analysis_id := "a1"
              title := "What If Conversation for Analysis a1", messages := [] }
          workflowEvents := [], streamError := Option.none }
        (SSEStreamEventQueueState.init 1000)).published.map (fun e => e.type) = ["error"] := by
  exact ⟨rfl, rfl⟩

/-- The three persisted turns of the C7 witness conversation, stored out of
order. -/
def c7SampleConversation : WhatIfConversation :=
  { user_id := "u1", conversation_id := "c1", analysis_id := "a1", title := "T"
    messages :=
      [{ role := "assistant", author := "planning_agent", text := "m2"
         content := PyData.pnone, sequence_number := 2 },
       { role := "assistant", author := "financial_analyst_agent_executor", text := "m3"
         content := PyData.pnone, sequence_number := 3 },
       { role := "user", author := "User", text := "m1"
         content := PyData.pnone, sequence_number := 1 }] }

/-- The C7 witness call environment: a stored conversation with 3 turns. -/
def c7SampleEnv : WhatIfExecEnv :=
  { importTime := "t0", publishNow := "t1", inputMessage := "What if rates rise?"
    conversationId := "c1", analysisId := "a1", opportunityId := "o1", ownerId := "u1"
    analysis := some { id := "a1" }
    storedConversation := some c7SampleConversation
    workflowEvents := [], streamError := Option.none }

/-- Witness for C7 (amended) at a conversation with 3 persisted turns,
stored out of order: the user turn is assigned sequence number 4. -/
theorem c7_witness :
    c7SampleEnv.analysis = some { id := "a1" } ∧
    c7SampleEnv.storedConversation = some c7SampleConversation ∧
    c7SampleConversation.messages ≠ [] ∧
    (WhatIfWorkflowExecutorService.executeWorkflow c7SampleEnv
        (SSEStreamEventQueueState.init 1000)).persisted.head? =
      some { role := "user", author := "User", text := c7SampleEnv.inputMessage
             content := PyData.pnone
             sequence_number := (c7SampleConversation.messages.length : Int) + 1 } := by
  refine ⟨rfl, rfl, by decide, ?_⟩
  exact ((c7_turn_numbering_amended c7SampleEnv (SSEStreamEventQueueState.init 1000)
    { id := "a1" } rfl).2 c7SampleConversation rfl (by decide)).1

/-- C8 (amended): whenever `execute_workflow` encounters an unexpected
internal exception during event generation, exactly one final failure event
carrying the error message and error type is published to the event queue
before the stream closes — of kind `error` in
`WhatIfWorkflowExecutorService.execute_workflow` and of kind
`workflow_failed` in the investment `WorkflowExecutor.execute_workflow`
(the original claim said kind `error` for both; see the counterexample).
In both cases the published list is the handled events followed by exactly
one trailing failure event. -/
theorem c8_one_final_failure_event_amended :
    (∀ (env : WhatIfExecEnv) (st0 : SSEStreamEventQueueState) (a : Analysis)
        (cc : ConversationContext) (e : PyError),
      env.analysis = some a →
      (tryGetConversationContext env.storedConversation env.conversationId env.analysisId
          env.ownerId).1 = some cc →
      env.streamError = some e →
      ∃ m : StreamEventMessage,
        (WhatIfWorkflowExecutorService.executeWorkflow env st0).published =
          (runWhatIfHandleEvents env.importTime env.publishNow st0
            ((cc.message_history.length : Int) + 1) env.workflowEvents).2.1 ++ [m] ∧
        m.type = "error" ∧ m.data = caughtErrorDict e ∧
        m.message = some ("What-if chat workflow failed: " ++ e.message)) ∧
    (∀ (env : InvExecEnv) (st0 : EventQueueState) (a : Analysis) (o : Opportunity)
        (e : PyError),
      env.analysis = some a → env.opportunity = some o → env.streamError = some e →
      ∃ m : EventMessage,
        (WorkflowExecutor.executeWorkflow env st0).published =
          (st0.runAddEventMessages env.analysisId
            (env.workflowEvents.map (invAddCall env.publishNow))).2 ++ [m] ∧
        m.type = "workflow_failed" ∧ m.data = caughtErrorDict e ∧
        m.message = some ("Analysis workflow failed: " ++ e.message)) := by
  constructor
  · intro env st0 a cc e ha hcc he
    rcases htg : tryGetConversationContext env.storedConversation env.conversationId
      env.analysisId env.ownerId with ⟨ctx, created⟩
    rw [htg] at hcc
    subst hcc
    rcases hrun : runWhatIfHandleEvents env.importTime env.publishNow st0
      ((cc.message_history.length : Int) + 1) env.workflowEvents with ⟨stEnd, pubs, pers⟩
    refine ⟨(stEnd.addEvent (whatIfErrorStreamMessage env.importTime e) env.publishNow).2,
      ?_, ?_, ?_, ?_⟩
    · simp [WhatIfWorkflowExecutorService.executeWorkflow, ha, htg, he, hrun, whatIfFailTrace]
    · exact (addEvent_snd_fields stEnd (whatIfErrorStreamMessage env.importTime e)
        env.publishNow).1
    · exact (addEvent_snd_fields stEnd (whatIfErrorStreamMessage env.importTime e)
        env.publishNow).2.1
    · exact (addEvent_snd_fields stEnd (whatIfErrorStreamMessage env.importTime e)
        env.publishNow).2.2
  · intro env st0 a o e ha ho he
    rcases hrun : st0.runAddEventMessages env.analysisId
      (env.workflowEvents.map (invAddCall env.publishNow)) with ⟨st1, pub⟩
    refine ⟨(st1.addEventMessage env.analysisId "workflow_failed" Option.none
      (caughtErrorDict e) (some ("Analysis workflow failed: " ++ e.message)) env.publishNow).2,
      ?_, ?_, ?_, ?_⟩
    · simp [WorkflowExecutor.executeWorkflow, ha, ho, he, hrun]
    · simp [EventQueueState.addEventMessage]
    · simp [EventQueueState.addEventMessage]
    · simp [EventQueueState.addEventMessage]

/-- C8 counterexample: the claim says the final failure event is of kind
`error`; in the investment `WorkflowExecutor.execute_workflow`, a stream
that raises publishes a final event of kind `workflow_failed`, and no event
of kind `error` is published at all. -/
theorem c8_counterexample_investment_failure_kind :
    (WorkflowExecutor.executeWorkflow
        { publishNow := "t1", analysisId := "a1", opportunityId := "o1", ownerId := "u1"
          analysis := some { id := "a1" }, opportunity := some { id := "o1" }
          workflowEvents := []
          streamError := some { message := "boom", error_type := "RuntimeError"
                                traceback := "None" } }
        (EventQueueState.init 1000)).published.map (fun e => e.type) = ["workflow_failed"] ∧
    (WorkflowExecutor.executeWorkflow
        { publishNow := "t1", analysisId := "a1", opportunityId := "o1", ownerId := "u1"
          analysis := some { id := "a1" }, opportunity := some { id := "o1" }
          workflowEvents := []
          streamError := some { message := "boom", error_type := "RuntimeError"
                                traceback := "None" } }
        (EventQueueState.init 1000)).published.filter (fun e => e.type == "error") = [] ∧
    ("workflow_failed" : String) ≠ "error" := by
  refine ⟨rfl, rfl, by decide⟩

/-- The C8 witness call environment for the what-if service: a new
conversation, one handled event, then the stream raises. -/
def c8SampleWhatIfEnv : WhatIfExecEnv :=
  { importTime := "t0", publishNow := "t1", inputMessage := "What if rates rise?"
    conversationId := "c1", analysisId := "a1", opportunityId := "o1", ownerId := "u1"
    analysis := some { id := "a1" }
    storedConversation := Option.none
    workflowEvents := [WorkflowEvent.workflowStarted]
    streamError := some { message := "boom", error_type := "RuntimeError"
                          traceback := "None" } }

/-- The C8 witness call environment for the investment executor. -/
def c8SampleInvEnv : InvExecEnv :=
  { publishNow := "t1", analysisId := "a1", opportunityId := "o1", ownerId := "u1"
    analysis := some { id := "a1" }, opportunity := some { id := "o1" }
    workflowEvents := [WorkflowEvent.workflowStarted]
    streamError := some { message := "boom", error_type := "RuntimeError"
                          traceback := "None" } }

/-- Witness for C8 (amended) at concrete failing runs of both services. -/
theorem c8_witness :
    (c8SampleWhatIfEnv.analysis = some { id := "a1" } ∧
      (tryGetConversationContext c8SampleWhatIfEnv.storedConversation
          c8SampleWhatIfEnv.conversationId c8SampleWhatIfEnv.analysisId
          c8SampleWhatIfEnv.ownerId).1 =
        some { conversation_id := "c1", message_history := [] } ∧
      c8SampleWhatIfEnv.streamError =
        some { message := "boom", error_type := "RuntimeError", traceback := "None" } ∧
      ∃ m : StreamEventMessage,
        (WhatIfWorkflowExecutorService.executeWorkflow c8SampleWhatIfEnv
            (SSEStreamEventQueueState.init 1000)).published =
          (runWhatIfHandleEvents c8SampleWhatIfEnv.importTime c8SampleWhatIfEnv.publishNow
            (SSEStreamEventQueueState.init 1000)
            ((([] : List ChatMessage).length : Int) + 1)
            c8SampleWhatIfEnv.workflowEvents).2.1 ++ [m] ∧
        m.type = "error" ∧
        m.data = caughtErrorDict
          { message := "boom", error_type := "RuntimeError", traceback := "None" } ∧
        m.message = some ("What-if chat workflow failed: " ++ "boom")) ∧
    (c8SampleInvEnv.analysis = some { id := "a1" } ∧
      c8SampleInvEnv.opportunity = some { id := "o1" } ∧
      ∃ m : EventMessage,
        (WorkflowExecutor.executeWorkflow c8SampleInvEnv (EventQueueState.init 1000)).published =
          ((EventQueueState.init 1000).runAddEventMessages c8SampleInvEnv.analysisId
            (c8SampleInvEnv.workflowEvents.map (invAddCall c8SampleInvEnv.publishNow))).2 ++
            [m] ∧
        m.type = "workflow_failed" ∧
        m.data = caughtErrorDict
          { message := "boom", error_type := "RuntimeError", traceback := "None" } ∧
        m.message = some ("Analysis workflow failed: " ++ "boom")) := by
  constructor
  · refine ⟨rfl, rfl, rfl, ?_⟩
    exact c8_one_final_failure_event_amended.1 c8SampleWhatIfEnv
      (SSEStreamEventQueueState.init 1000) { id := "a1" }
      { conversation_id := "c1", message_history := [] }
      { message := "boom", error_type := "RuntimeError", traceback := "None" } rfl rfl rfl
  · refine ⟨rfl, rfl, ?_⟩
    exact c8_one_final_failure_event_amended.2 c8SampleInvEnv (EventQueueState.init 1000)
      { id := "a1" } { id := "o1" }
      { message := "boom", error_type := "RuntimeError", traceback := "None" } rfl rfl rfl

/-- C10: if the stored conversation exists but its message list is empty,
`_try_get_conversation_context` returns `None` and the subsequent
`execute_workflow` call fails before persisting the user's input message
and before starting any workflow stage, publishing exactly one event, of
type `error`, to the SSE event queue (and creating no conversation). -/
theorem c10_existing_empty_conversation_fails_early (env : WhatIfExecEnv)
    (st0 : SSEStreamEventQueueState) (a : Analysis) (conv : WhatIfConversation)
    (ha : env.analysis = some a) (hc : env.storedConversation = some conv)
    (hm : conv.messages = []) :
    (tryGetConversationContext env.storedConversation env.conversationId env.analysisId
        env.ownerId).1 = Option.none ∧
    (WhatIfWorkflowExecutorService.executeWorkflow env st0).persisted = [] ∧
    (WhatIfWorkflowExecutorService.executeWorkflow env st0).workflowRan = false ∧
    (WhatIfWorkflowExecutorService.executeWorkflow env st0).published.map (fun e => e.type) =
      ["error"] ∧
    (WhatIfWorkflowExecutorService.executeWorkflow env st0).createdConversations = [] := by
  have htg : tryGetConversationContext env.storedConversation env.conversationId env.analysisId
      env.ownerId = (Option.none, []) := by
    simp [tryGetConversationContext, hc, hm]
  refine ⟨by rw [htg], ?_, ?_, ?_, ?_⟩ <;>
    simp [WhatIfWorkflowExecutorService.executeWorkflow, ha, htg, whatIfFailTrace,
      whatIfErrorStreamMessage, (addEvent_snd_fields st0 _ env.publishNow).1]

/-- Witness for C10 at a concrete stored conversation with no messages. -/
theorem c10_witness :
    ({ importTime := "t0", publishNow := "t1", inputMessage := "What if rates rise?"
       conversationId := "c1", analysisId := "a1", opportunityId := "o1", ownerId := "u1"
       analysis := some { id := "a1" }
       storedConversation := some
         { user_id := "u1", conversation_id := "c1", analysis_id := "a1", title := "T"
           messages := [] }
       workflowEvents := [WorkflowEvent.workflowStarted]
       streamError := Option.none } : WhatIfExecEnv).analysis = some { id := "a1" } ∧
    (WhatIfWorkflowExecutorService.executeWorkflow
        { importTime := "t0", publishNow := "t1", inputMessage := "What if rates rise?"
          conversationId := "c1", analysisId := "a1", opportunityId := "o1", ownerId := "u1"
          analysis := some { id := "a1" }
          storedConversation := some
            { user_id := "u1", conversation_id := "c1", analysis_id := "a1", title := "T"
              messages := [] }
          workflowEvents := [WorkflowEvent.workflowStarted]
          streamError := Option.none }
        (SSEStreamEventQueueState.init 1000)).persisted = [] ∧
    (WhatIfWorkflowExecutorService.executeWorkflow
        { importTime := "t0", publishNow := "t1", inputMessage := "What if rates rise?"
          conversationId := "c1", analysisId := "a1", opportunityId := "o1", ownerId := "u1"
          analysis := some { id := "a1" }
          storedConversation := some
            { user_id := "u1", conversation_id := "c1", analysis_id := "a1", title := "T"
              messages := [] }
          workflowEvents := [WorkflowEvent.workflowStarted]
          streamError := Option.none }
        (SSEStreamEventQueueState.init 1000)).published.map (fun e => e.type) = ["error"] := by
  have h := c10_existing_empty_conversation_fails_early
    { importTime := "t0", publishNow := "t1", inputMessage := "What if rates rise?"
      conversationId := "c1", analysisId := "a1", opportunityId := "o1", ownerId := "u1"
      analysis := some { id := "a1" }
      storedConversation := some
        { user_id := "u1", conversation_id := "c1", analysis_id := "a1", title := "T"
          messages := [] }
      workflowEvents := [WorkflowEvent.workflowStarted]
      streamError := Option.none }
    (SSEStreamEventQueueState.init 1000) { id := "a1" }
    { user_id := "u1", conversation_id := "c1", analysis_id := "a1", title := "T"
      messages := [] } rfl rfl rfl
  exact ⟨rfl, h.2.1, h.2.2.2.1⟩
end InvestSample
